import Mathlib

/-
Verification of the Shield plugin runtime (packages/shelter/src) against its
specification. The development shallowly embeds the storage layer
(storage.ts), the plugin registry and lifecycle manager (plugins.tsx) and
import/export (data.ts) as executable Lean definitions, and settles the
spec claims as theorems about those definitions.

Conventions used throughout:
- JavaScript objects used as string-keyed dictionaries are modelled as
  association lists `List (String × α)`; property insertion order is the
  list order, matching JS `for...in` enumeration of string keys.
- `async` functions are modelled as step functions that either complete
  (`Outcome.ok` / `Outcome.thrown e` for a rejected promise) or suspend
  forever at an `await` whose promise never settles (`Outcome.pending`).
- Hook invocations performed by the lifecycle manager are recorded in an
  event list so that observable effects (e.g. `onUnload` firing) can be
  stated.
-/

namespace Shield

/-! ## Association-list helpers (JS string-keyed object semantics) -/

/-- Lookup of a string property on a JS object: first (unique) matching key. -/
def alistGet? (m : List (String × α)) (k : String) : Option α :=
  (m.find? (fun p => p.1 = k)).map (fun p => p.2)

/-- Property assignment: overwrite in place if the key exists, else append
(JS objects keep the original insertion position on overwrite). -/
def alistSet (m : List (String × α)) (k : String) (v : α) : List (String × α) :=
  match m with
  | [] => [(k, v)]
  | (k1, v1) :: rest =>
    if k1 = k then (k, v) :: rest else (k1, v1) :: alistSet rest k v

/-- Property deletion (`delete obj[k]`). -/
def alistDel (m : List (String × α)) (k : String) : List (String × α) :=
  m.filter (fun p => ¬ p.1 = k)

/-- `Object.assign(target, src)`: copy every property of `src` onto `target`
in `src`'s enumeration order. -/
def alistAssign (target src : List (String × α)) : List (String × α) :=
  src.foldl (fun acc p => alistSet acc p.1 p.2) target

/-! ## JavaScript values

Serializable-or-not runtime values, for the storage layer (storage.ts).
Cyclic object graphs are not representable in an inductive type; every
value here is a finite (acyclic) object graph, which is the regime where
the claims about functions and symbols are decided. -/

inductive JsValue : Type
  | undef : JsValue
  | jsBool : Bool → JsValue
  | num : Int → JsValue
  | str : String → JsValue
  | func : JsValue
  | symbol : JsValue
  | obj : List (String × JsValue) → JsValue
  | arr : List JsValue → JsValue

/- Structural equality on JS values; stands in for the reference equality
used by `Array.prototype.includes` (on acyclic graphs an ancestor is a
strict superterm, so the ancestor check of `cloneRec` behaves identically). -/
mutual
def JsValue.beq : JsValue → JsValue → Bool
  | .undef, .undef => true
  | .jsBool a, .jsBool b => a == b
  | .num a, .num b => a == b
  | .str a, .str b => a == b
  | .func, .func => true
  | .symbol, .symbol => true
  | .obj a, .obj b => JsValue.beqFields a b
  | .arr a, .arr b => JsValue.beqList a b
  | _, _ => false

def JsValue.beqFields : List (String × JsValue) → List (String × JsValue) → Bool
  | [], [] => true
  | (k1, v1) :: r1, (k2, v2) :: r2 => k1 == k2 && JsValue.beq v1 v2 && JsValue.beqFields r1 r2
  | _, _ => false

def JsValue.beqList : List JsValue → List JsValue → Bool
  | [], [] => true
  | a :: r1, b :: r2 => JsValue.beq a b && JsValue.beqList r1 r2
  | _, _ => false
end

instance : BEq JsValue := ⟨JsValue.beq⟩

/-! ## storage.ts: cloneRec (lines 9-29)

`cloneRec` is the serialization front-end of the storage layer. Source
behaviour: for a `function` or `symbol` it LOGS an error and returns
`undefined` (the `throw new Error` on line 13 is commented out); for an
object already present among its ancestors (`seenNodes`) it throws the
circular-reference error; otherwise it clones recursively. The returned
pair carries the clone together with the list of logged error messages. -/

def cantStoreMsg (t : String) : String :=
  "can't store a " ++ t ++ " in a shelter storage!"

def circularMsg : String := "can't store a circular reference in a shelter storage!"

mutual
def cloneRec : JsValue → List JsValue → Except String (JsValue × List String)
  | .func, _ => .ok (.undef, [cantStoreMsg "function"])
  | .symbol, _ => .ok (.undef, [cantStoreMsg "symbol"])
  | .obj fields, seen =>
    if seen.any (fun s => JsValue.beq s (.obj fields)) then .error circularMsg
    else
      match cloneFields fields (seen ++ [.obj fields]) with
      | .error e => .error e
      | .ok (fs, logs) => .ok (.obj fs, logs)
  | .arr elems, seen =>
    if seen.any (fun s => JsValue.beq s (.arr elems)) then .error circularMsg
    else
      match cloneElems elems (seen ++ [.arr elems]) with
      | .error e => .error e
      | .ok (es, logs) => .ok (.arr es, logs)
  | v, _ => .ok (v, [])

def cloneFields : List (String × JsValue) → List JsValue →
    Except String (List (String × JsValue) × List String)
  | [], _ => .ok ([], [])
  | (k, v) :: rest, seen =>
    match cloneRec v seen with
    | .error e => .error e
    | .ok (v', logs) =>
      match cloneFields rest seen with
      | .error e => .error e
      | .ok (rest', logs') => .ok ((k, v') :: rest', logs ++ logs')

def cloneElems : List JsValue → List JsValue → Except String (List JsValue × List String)
  | [], _ => .ok ([], [])
  | v :: rest, seen =>
    match cloneRec v seen with
    | .error e => .error e
    | .ok (v', logs) =>
      match cloneElems rest seen with
      | .error e => .error e
      | .ok (rest', logs') => .ok (v' :: rest', logs ++ logs')
end

/-! ## storage.ts: JSON.stringify (used by save(), line 227)

The rewritten `save()` serializes with `JSON.stringify` (not `cloneRec`).
JSON.stringify semantics on our value type: `undefined`, functions and
symbols produce no output at the top level (`none`), are OMITTED from
objects, and become `null` inside arrays. String escaping is not modelled
(no claim depends on it). -/

mutual
def jsonStringify : JsValue → Option String
  | .undef => none
  | .func => none
  | .symbol => none
  | .jsBool b => some (cond b "true" "false")
  | .num n => some (toString n)
  | .str s => some ("\"" ++ s ++ "\"")
  | .obj fields => some ("\x7b" ++ String.intercalate "," (stringifyFields fields) ++ "\x7d")
  | .arr elems => some ("[" ++ String.intercalate "," (stringifyElems elems) ++ "]")

def stringifyFields : List (String × JsValue) → List String
  | [] => []
  | (k, v) :: rest =>
    match jsonStringify v with
    | none => stringifyFields rest
    | some s => ("\"" ++ k ++ "\":" ++ s) :: stringifyFields rest

def stringifyElems : List JsValue → List String
  | [] => []
  | v :: rest => ((jsonStringify v).getD "null") :: stringifyElems rest
end

/-! ## storage.ts: the store object (lines 173-282)

`storage(name)` builds a Proxy over a plain data object and then attaches
the three symbol-keyed fields. The ones relevant here:

- `proxy[symDb] = undefined` (line 278) — the connectedness handle is set
  to `undefined` at creation and is assigned NOWHERE else in the sources.
- `proxy[symWait] = (cb) => { /* no-op for now */ }` (lines 275-277) — the
  ready-callback hook discards its callback: nothing is invoked and
  nothing is queued; the store has no callback-queue field at all.

The model takes the fresh-start path of `init()` (no persisted item, so
`data = {}` synchronously). -/

structure StorageStore where
  storeName : String
  data : List (String × JsValue)
  /-- the `symDb` field: `undefined` is `none`. -/
  db : Option Unit

/-- storage.ts 173-282: create a store. `data` starts empty, `symDb` starts
`undefined`. -/
def storage (name : String) : StorageStore :=
  { storeName := name, data := [], db := none }

/-- storage.ts 380: `isInited = (store) => !!store[symDb]`. -/
def isInited (store : StorageStore) : Bool := store.db.isSome

/-- storage.ts 382 with 275-277: `whenInited(store, cb)` calls
`store[symWait](cb)`, and the attached `symWait` is the no-op closure
`(cb) => { /* no-op for now */ }`. The result is the store after the call
together with the list of callbacks the call invokes (now or by queueing):
the closure body is empty, so the store is untouched and no callback is
ever invoked or retained. -/
def whenInited (store : StorageStore) (_cb : α) : StorageStore × List α :=
  (store, [])

/-- Proxy `set` trap with `save()` (storage.ts 262-266 and 223-252): assign
into the target, run `save()` — whose body is wrapped in try/catch that
only `console.error`s — and return `true` unconditionally. The Bool is the
value the trap reports to the caller: no error ever surfaces at the call
site. -/
def proxySet (store : StorageStore) (k : String) (v : JsValue) : Bool × StorageStore :=
  (true, { store with data := alistSet store.data k v })

/-- Proxy `deleteProperty` trap (storage.ts 267-271): same shape. -/
def proxyDelete (store : StorageStore) (k : String) : Bool × StorageStore :=
  (true, { store with data := alistDel store.data k })

/-- The JSON text `save()` would persist for the store's current contents
(before encryption, which is content-preserving). -/
def persistedJson (store : StorageStore) : Option String :=
  jsonStringify (.obj store.data)

/-- Store-level operations available on a `storage(name)` proxy. -/
inductive StoreOp : Type
  | setK : String → JsValue → StoreOp
  | delK : String → StoreOp
  | assign : List (String × JsValue) → StoreOp

def applyStoreOp (store : StorageStore) : StoreOp → StorageStore
  | .setK k v => (proxySet store k v).2
  | .delK k => (proxyDelete store k).2
  | .assign src => { store with data := alistAssign store.data src }

def applyStoreOps (ops : List StoreOp) (store : StorageStore) : StorageStore :=
  ops.foldl applyStoreOp store

end Shield

namespace Shield

/-! ## plugins.tsx: data model (lines 35-93)

`StoredPlugin = PluginMetadata & { ... }`: the metadata fields live BOTH at
top level (used by `validatePlugin`) and nested under `manifest`. Optional
JS fields are `Option`s (`none` = property absent / `undefined`). The
`store` handle is modelled by its contents. `injectorIntegration` is an
opaque passthrough, modelled by presence. -/

structure PluginMetadata where
  name : String := ""
  description : String := ""
  version : String := ""
  author : String := ""
  license : Option String := none
  permissions : Option (List String) := none
  dependencies : Option (List (String × String)) := none
  minShieldVersion : Option String := none
  maxShieldVersion : Option String := none
  hash : Option String := none
deriving DecidableEq

structure PluginUsageStats where
  startCount : Nat := 0
  errorCount : Nat := 0
  lastStarted : Option Int := none
  totalUptime : Option Int := none
deriving DecidableEq

structure StoredPlugin extends PluginMetadata where
  local' : Bool := true
  src : String := ""
  update : Option Bool := none
  manifest : PluginMetadata := {}
  js : String := ""
  on' : Bool := false
  enabledAt : Option Int := none
  disabledAt : Option Int := none
  lastError : Option String := none
  lastUpdated : Option Int := none
  injectorIntegration : Option Bool := none
  usageStats : Option PluginUsageStats := none
  store : List (String × JsValue) := []

/-- plugins.tsx 83-91: the evaluated plugin. A lifecycle hook is `none`
when the evaluated object has no such property; a present hook is
summarised by the outcome of invoking it (`okHook`, or `errHook e` when
the invocation throws/rejects with message `e`). -/
inductive HookResult : Type
  | okHook : HookResult
  | errHook : String → HookResult
deriving DecidableEq

structure EvaledPlugin where
  onLoad : Option HookResult := none
  onUnload : Option HookResult := none
  onUpdate : Option HookResult := none
deriving DecidableEq

/-! ## plugins.tsx: compareVersions (lines 350-360) -/

/-- JS `s.split(".")`, written over the character list with structural
recursion so the kernel can evaluate it (`String.splitOn` uses
well-founded recursion and does not reduce). -/
def splitDotAux : List Char → List Char → List (List Char)
  | [], acc => [acc.reverse]
  | c :: rest, acc =>
    if c = '.' then acc.reverse :: splitDotAux rest []
    else splitDotAux rest (c :: acc)

def jsSplitDot (s : String) : List String :=
  (splitDotAux s.toList []).map (fun cs => String.mk cs)

/-- Decimal value of a digit string (kernel-evaluable stand-in for
`String.toNat?`). -/
def decDigits? (cs : List Char) : Option Nat :=
  if cs ≠ [] ∧ cs.all Char.isDigit then
    some (cs.foldl (fun acc c => acc * 10 + (c.toNat - 48)) 0)
  else none

/-- JavaScript `Number(s)` restricted to the shapes version parts take:
the empty string converts to `0`, an unsigned decimal numeral to its
value, anything else to `NaN` (modelled as `none`). -/
def jsNumber (s : String) : Option Int :=
  if s = "" then some 0 else (decDigits? s.toList).map Int.ofNat

/-- `v.split(".").map(Number)`. -/
def versionParts (v : String) : List (Option Int) :=
  (jsSplitDot v).map jsNumber

/-- `parts[i] || 0`: a missing part (`undefined`), `NaN` and `0` itself all
yield `0`. -/
def partAt (ps : List (Option Int)) (i : Nat) : Int :=
  ((ps.getD i none).getD 0)

/-- The comparison loop of lines 354-358, with explicit fuel
`Math.max(parts1.length, parts2.length) - i`. -/
def cmpFrom (ps1 ps2 : List (Option Int)) : Nat → Nat → Int
  | _, 0 => 0
  | i, fuel + 1 =>
    let n1 := partAt ps1 i
    let n2 := partAt ps2 i
    if n1 ≠ n2 then n1 - n2 else cmpFrom ps1 ps2 (i + 1) fuel

def cmpParts (ps1 ps2 : List (Option Int)) : Int :=
  cmpFrom ps1 ps2 0 (max ps1.length ps2.length)

/-- plugins.tsx 350-360. -/
def compareVersions (v1 v2 : String) : Int :=
  cmpParts (versionParts v1) (versionParts v2)

/-! ## plugins.tsx: validatePlugin (lines 363-411) -/

/-- The regex `^\d+$` on one version part. -/
def digitsOnly (s : String) : Bool :=
  decide (s.toList ≠ []) && s.toList.all Char.isDigit

/-- The regex `^\d+\.\d+\.\d+$` of line 373. -/
def semverShape (v : String) : Bool :=
  match jsSplitDot v with
  | [a, b, c] => digitsOnly a && digitsOnly b && digitsOnly c
  | _ => false

/-- The dependency regex `^[\^~]?\d+\.\d+\.\d+$` of line 394. -/
def depVersionOk (s : String) : Bool :=
  semverShape s ||
    (match s.toList with
     | c :: rest => (c == '^' || c == '~') && semverShape (String.mk rest)
     | [] => false)

/-- JS `!s.trim()`: true iff every character is whitespace (the trimmed
string is empty). Written over the character list so it evaluates. -/
def jsTrimEmpty (s : String) : Bool := s.toList.all Char.isWhitespace

/-- Line 383: the hard-coded host version. -/
def currentVersion : String := "1.0.0"

def validPermissions : List String := ["storage", "network", "ui", "settings"]

/-- plugins.tsx 363-411, accumulating messages in source order. The
`plugin.hash` type check of lines 378-380 can never fire in a typed model
(an `Option String` hash is always a string when present) and contributes
no message. -/
def validatePlugin (p : StoredPlugin) : List String :=
  (if jsTrimEmpty p.name then ["Plugin must have a non-empty name"] else []) ++
  (if jsTrimEmpty p.version then ["Plugin must have a version"] else []) ++
  (if jsTrimEmpty p.author then ["Plugin must have an author"] else []) ++
  (if jsTrimEmpty p.description then ["Plugin must have a description"] else []) ++
  (if p.version ≠ "" ∧ ¬ semverShape p.version then
    ["Version must follow semver format (x.y.z)"] else []) ++
  (match p.minShieldVersion with
   | none => []
   | some v =>
     if v ≠ "" ∧ compareVersions currentVersion v < 0 then
       ["Plugin requires Shield version " ++ v ++ " or higher"] else []) ++
  (match p.maxShieldVersion with
   | none => []
   | some v =>
     if v ≠ "" ∧ compareVersions currentVersion v > 0 then
       ["Plugin requires Shield version " ++ v ++ " or lower"] else []) ++
  (match p.dependencies with
   | none => []
   | some deps =>
     deps.foldr (fun d acc =>
       (if ¬ depVersionOk d.2 then ["Invalid version format for dependency " ++ d.1] else []) ++ acc) []) ++
  (match p.permissions with
   | none => []
   | some perms =>
     perms.foldr (fun perm acc =>
       (if ¬ validPermissions.contains perm then ["Invalid permission: " ++ perm] else []) ++ acc) [])

end Shield

namespace Shield

/-! ## plugins.tsx: runtime state (lines 128-134)

Three DISTINCT containers track loadedness in the source, and they are
kept distinct here because different functions consult different ones:

- `loadedProps`: the properties assigned onto the `internalLoaded` signal
  GETTER FUNCTION itself (`internalLoaded[pluginId] = plugin`, line 519;
  read at lines 477, 556, 569, 636, 669, 681, 684).
- `loadedSignalVal`: the value held INSIDE the solid signal, read by
  calling `internalLoaded()` (line 211). `setInternalLoaded` is never
  invoked anywhere in the sources, so this value remains the initial `{}`.
- `loadedPluginsMut`: the `createMutable` export `loadedPlugins`
  (line 130), consulted by data.ts (lines 77, 132); no code writes to it.

`pluginStoragesDb` is the `symDb` field of the module-level
`storage("plugins-data")` store, and `pluginStoragesData` its contents.
`dbStoreData` is the contents of the `dbStore` store (storage.ts 375). -/

structure RState where
  internalData : List (String × StoredPlugin) := []
  loadedProps : List (String × EvaledPlugin) := []
  loadedSignalVal : List (String × EvaledPlugin) := []
  loadedPluginsMut : List (String × EvaledPlugin) := []
  pluginStoragesDb : Option Unit := none
  pluginStoragesData : List (String × JsValue) := []
  dbStoreData : List (String × JsValue) := []

/-- The state at module initialization: every store fresh (`symDb`
undefined), every loadedness container empty, registry empty. -/
def initialState : RState := {}

/-- Result of running an `async` function to quiescence: it resolved, its
promise rejected with an error message, or it suspended at an `await`
whose promise never settles. -/
inductive Outcome : Type
  | resolved : Outcome
  | thrown : String → Outcome
  | pending : Outcome
deriving DecidableEq

/-- Observable actions the lifecycle manager performs on plugin code or
the network. -/
inductive Event : Type
  | evalJs : String → Event
  | onLoadCall : String → Event
  | onUnloadCall : String → Event
  | onUpdateCall : String → Event
  | scopedDisposeCall : String → Event
  | fetchManifest : String → Event
deriving DecidableEq

structure RunResult where
  outcome : Outcome
  state : RState
  events : List Event := []

/-- Modelled from the spec: the reserved development-mode id. Its defining
module (devmode.ts) is not among the sources; only its distinctness from
ordinary plugin ids matters to the claims below. -/
def devModeReservedId : String := "shelter-dev"

/-! ## plugins.tsx: createStorage (lines 96-125)

`createStorage` first requires `isInited(pluginStorages)` (line 97) —
`pluginStorages[symDb]`, the `pluginStoragesDb` component here — and
otherwise throws; if the check passed it would then `await
waitInit(store)` (line 123), a promise built on `whenInited`
(storage.ts 384), which never settles because the attached `symWait`
no-ops. So a call either throws immediately or suspends forever. -/

def prematureStoreMsg : String :=
  "to keep data persistent, plugin storages must not be created until connected to IDB"

def createStorageCheck (st : RState) : Except String Unit :=
  if st.pluginStoragesDb.isSome then .ok () else .error prematureStoreMsg

/-! ## plugins.tsx: registry helpers (lines 143-151, 202-207) -/

def getPluginData (st : RState) (id : String) : Option StoredPlugin :=
  alistGet? st.internalData id

def updateNonexistentMsg (id : String) : String :=
  "attempted to update non-existent plugin: " ++ id

/-- A `Partial<StoredPlugin>` patch: `some` fields are own properties of
the patch object and overwrite; `none` fields are absent and keep the
existing record's value under the `{ ...existing, ...patch }` merge. -/
structure PluginPatch where
  name : Option String := none
  description : Option String := none
  version : Option String := none
  author : Option String := none
  local' : Option Bool := none
  src : Option String := none
  update : Option (Option Bool) := none
  manifest : Option PluginMetadata := none
  js : Option String := none
  on' : Option Bool := none
  enabledAt : Option (Option Int) := none
  disabledAt : Option (Option Int) := none
  lastError : Option (Option String) := none
  lastUpdated : Option (Option Int) := none
  injectorIntegration : Option (Option Bool) := none
  usageStats : Option (Option PluginUsageStats) := none
  store : Option (List (String × JsValue)) := none

def mergePatch (existing : StoredPlugin) (p : PluginPatch) : StoredPlugin :=
  { existing with
    name := p.name.getD existing.name
    description := p.description.getD existing.description
    version := p.version.getD existing.version
    author := p.author.getD existing.author
    local' := p.local'.getD existing.local'
    src := p.src.getD existing.src
    update := p.update.getD existing.update
    manifest := p.manifest.getD existing.manifest
    js := p.js.getD existing.js
    on' := p.on'.getD existing.on'
    enabledAt := p.enabledAt.getD existing.enabledAt
    disabledAt := p.disabledAt.getD existing.disabledAt
    lastError := p.lastError.getD existing.lastError
    lastUpdated := p.lastUpdated.getD existing.lastUpdated
    injectorIntegration := p.injectorIntegration.getD existing.injectorIntegration
    usageStats := p.usageStats.getD existing.usageStats
    store := p.store.getD existing.store }

/-- A complete plugin object used as a patch: every field is an own
property (object literals in the source spell out all of them). -/
def patchOfPlugin (q : StoredPlugin) : PluginPatch :=
  { name := some q.name, description := some q.description,
    version := some q.version, author := some q.author,
    local' := some q.local', src := some q.src, update := some q.update,
    manifest := some q.manifest, js := some q.js, on' := some q.on',
    enabledAt := some q.enabledAt, disabledAt := some q.disabledAt,
    lastError := some q.lastError, lastUpdated := some q.lastUpdated,
    injectorIntegration := some q.injectorIntegration,
    usageStats := some q.usageStats, store := some q.store }

/-- plugins.tsx 147-151: `updatePluginData` THROWS when no record exists
for `id` — it can only update, never create. -/
def updatePluginData (st : RState) (id : String) (p : PluginPatch) : Except String RState :=
  match getPluginData st id with
  | none => .error (updateNonexistentMsg id)
  | some existing =>
    .ok { st with internalData := alistSet st.internalData id (mergePatch existing p) }

/-- plugins.tsx 202-207: merge `overwrite` over the (possibly absent)
existing record, then store via `updatePluginData`. The `lastUpdated`
stamp of line 205 mutates the local merged object AFTER `updatePluginData`
stored a fresh copy, so it never reaches the registry and is not modelled. -/
def editPlugin (st : RState) (id : String) (overwrite : StoredPlugin) : Except String RState :=
  updatePluginData st id (patchOfPlugin overwrite)

end Shield

namespace Shield

/-! ## plugins.tsx: startPlugin (lines 474-564)

Control flow of the source:
1. line 476: no record → throw.
2. line 477: `internalLoaded[pluginId]` — a property READ on the getter
   function (`loadedProps`) — truthy → throw "already loaded".
3. lines 480-494: validation failure → mutate the record in place
   (`lastError`, `usageStats.errorCount`) and throw. The record object was
   obtained by reference from the registry, so these writes land in the
   registry.
4. line 497: `await createPluginApi(...)` → `createStorage(pluginId)`:
   throws the premature-store error when `isInited(pluginStorages)` is
   false, and otherwise suspends forever at `await waitInit(store)`
   (storage.ts symWait no-ops, so the promise never settles). Line 497
   sits OUTSIDE the try of lines 506-563, so the throw propagates without
   any cleanup.
Everything after line 497 (eval, LoadedPlugin registration, onLoad, the
catch-block cleanup) is therefore unreachable on every execution; it is
embedded separately below as `startPluginAfterApi`. -/

def loadNonexistentMsg (id : String) : String :=
  "attempted to load a non-existent plugin: " ++ id

def alreadyLoadedMsg : String := "attempted to load an already loaded plugin"

def validationFailedMsg (errs : List String) : String :=
  "Plugin validation failed: " ++ String.intercalate ", " errs

/-- The usageStats object initialized at lines 484-491 / 530-537 / 542-549. -/
def freshStats (now : Int) : PluginUsageStats :=
  { startCount := 0, errorCount := 0, lastStarted := some now, totalUptime := some 0 }

def startPlugin (now : Int) (_evalResult : Except String EvaledPlugin)
    (st : RState) (pluginId : String) : RunResult :=
  match getPluginData st pluginId with
  | none => ⟨.thrown (loadNonexistentMsg pluginId), st, []⟩
  | some data =>
    if (alistGet? st.loadedProps pluginId).isSome then
      ⟨.thrown alreadyLoadedMsg, st, []⟩
    else
      let errs := validatePlugin data
      if errs ≠ [] then
        let msg := validationFailedMsg errs
        let stats := data.usageStats.getD (freshStats now)
        let data' := { data with
          lastError := some msg,
          usageStats := some { stats with errorCount := stats.errorCount + 1 } }
        ⟨.thrown msg, { st with internalData := alistSet st.internalData pluginId data' }, []⟩
      else
        match createStorageCheck st with
        | .error e => ⟨.thrown e, st, []⟩
        | .ok _ => ⟨.pending, st, []⟩

/-- plugins.tsx 498-563: the continuation of `startPlugin` after
`createPluginApi` would resolve. No execution reaches it (see above); it
is embedded so the cleanup path the spec describes can be inspected. Note
that the catch block (540-562) invokes `onUnload` best-effort and deletes
the `LoadedPlugin`, but never calls `scopedDispose`. -/
def startPluginAfterApi (now : Int) (evalResult : Except String EvaledPlugin)
    (st : RState) (pluginId : String) (data : StoredPlugin) : RunResult :=
  let cleanup : RState → String → List Event → RunResult := fun st1 e evs =>
    let data1 := (getPluginData st1 pluginId).getD data
    let stats := data1.usageStats.getD (freshStats now)
    let data2 := { data1 with
      disabledAt := some now,
      usageStats := some { stats with errorCount := stats.errorCount + 1 },
      lastError := some e,
      on' := false }
    let st2 := { st1 with internalData := alistSet st1.internalData pluginId data2 }
    let unloadEvs :=
      match alistGet? st2.loadedProps pluginId with
      | some lp => if lp.onUnload.isSome then [Event.onUnloadCall pluginId] else []
      | none => []
    let st3 := { st2 with loadedProps := alistDel st2.loadedProps pluginId }
    ⟨.thrown e, st3, evs ++ unloadEvs⟩
  match evalResult with
  | .error e => cleanup st e [Event.evalJs pluginId]
  | .ok plugin =>
    let st1 := { st with loadedProps := alistSet st.loadedProps pluginId plugin }
    match plugin.onLoad with
    | some (.errHook e) =>
      cleanup st1 e [Event.evalJs pluginId, Event.onLoadCall pluginId]
    | r =>
      let loadEvs := if r.isSome then [Event.onLoadCall pluginId] else []
      let stats := data.usageStats.getD (freshStats now)
      let data' := { data with
        enabledAt := some now,
        usageStats := some { stats with
          startCount := stats.startCount + 1, lastStarted := some now } }
      ⟨.resolved, { st1 with internalData := alistSet st1.internalData pluginId data' },
        [Event.evalJs pluginId] ++ loadEvs⟩

/-! ## plugins.tsx: stopPlugin (lines 567-593) -/

def unloadNonexistentMsg (id : String) : String :=
  "attempted to unload a non-existent plugin: " ++ id

def notLoadedMsg (id : String) : String :=
  "attempted to unload a non-loaded plugin: " ++ id

def stopPlugin (now : Int) (st : RState) (pluginId : String) : RunResult :=
  match getPluginData st pluginId with
  | none => ⟨.thrown (unloadNonexistentMsg pluginId), st, []⟩
  | some data =>
    match alistGet? st.loadedProps pluginId with
    | none => ⟨.thrown (notLoadedMsg pluginId), st, []⟩
    | some loadedData =>
      let evs := (if loadedData.onUnload.isSome then [Event.onUnloadCall pluginId] else []) ++
        [Event.scopedDisposeCall pluginId]
      let enabledAtTruthy := match data.enabledAt with
        | some t => decide (t ≠ 0)
        | none => false
      let data1 :=
        if enabledAtTruthy && data.usageStats.isSome then
          let stats := data.usageStats.getD {}
          { data with usageStats := some { stats with
              totalUptime := some (stats.totalUptime.getD 0 +
                (now - data.enabledAt.getD 0)) } }
        else data
      let data2 := { data1 with disabledAt := some now, on' := false }
      ⟨.resolved,
        { st with
          internalData := alistSet st.internalData pluginId data2,
          loadedProps := alistDel st.loadedProps pluginId },
        evs⟩

/-! ## plugins.tsx: removePlugin (lines 209-214)

Line 211 tests `id in internalLoaded()` — the value held inside the solid
signal (`loadedSignalVal`), which no code ever updates — NOT the
`loadedProps` container where line 519 would register running plugins. -/

def removeNonexistentMsg (id : String) : String :=
  "attempted to remove non-existent plugin " ++ id

def removePlugin (now : Int) (st : RState) (pluginId : String) : RunResult :=
  if (getPluginData st pluginId).isNone then
    ⟨.thrown (removeNonexistentMsg pluginId), st, []⟩
  else
    let afterStop :=
      if (alistGet? st.loadedSignalVal pluginId).isSome then stopPlugin now st pluginId
      else ⟨.resolved, st, []⟩
    let st1 := afterStop.state
    let st2 :=
      if pluginId = devModeReservedId then
        { st1 with pluginStoragesData := alistDel st1.pluginStoragesData pluginId }
      else st1
    ⟨.resolved, { st2 with internalData := alistDel st2.internalData pluginId },
      afterStop.events⟩

/-! ## plugins.tsx: addLocalPlugin (lines 154-171)

After its guards it forces `local = true`, strips `injectorIntegration`,
validates the shape (in the typed model only the `typeof plugin.update
!== "boolean"` test of line 163 can fail: an absent `update` is
`undefined`), forces `on = false`, then calls `updatePluginData` — which
throws for the fresh id it just guaranteed. -/

def idTakenMsg : String := "plugin ID invalid or taken"

def objectValidationMsg : String := "Plugin object failed validation"

def addLocalPlugin (st : RState) (id : String) (plugin : StoredPlugin) : RunResult :=
  if (getPluginData st id).isSome ∨ id = devModeReservedId then
    ⟨.thrown idTakenMsg, st, []⟩
  else
    let plugin := { plugin with local' := true, injectorIntegration := none }
    if plugin.update.isNone then
      ⟨.thrown objectValidationMsg, st, []⟩
    else
      let plugin := { plugin with on' := false }
      match updatePluginData st id (patchOfPlugin plugin) with
      | .error e => ⟨.thrown e, st, []⟩
      | .ok st' => ⟨.resolved, st', []⟩

end Shield

namespace Shield

/-! ## plugins.tsx: fetchUpdate / updatePlugin (lines 596-665)

Network fetches are abstracted by an oracle carrying the outcome of the
manifest fetch+parse and of the code fetch. -/

structure FetchOracle where
  manifestResult : Except String PluginMetadata
  jsResult : Except String String

def updateNonexistentMsg2 (id : String) : String :=
  "attempted to update a non-existent plugin: " ++ id

def cannotUpdateLocalMsg : String := "cannot check for updates to a local plugin."

def noSrcMsg : String := "cannot check for updates to a plugin with no src"

def updateFailedMsg (id cause : String) : String :=
  "failed to check for updates for " ++ id ++ "\n" ++ cause

/-- plugins.tsx 596-620. Returns `none` for the source's `false` (hashes
match) and `some plugin` for a fetched update. -/
def fetchUpdate (o : FetchOracle) (now : Int) (st : RState) (pluginId : String) :
    Except String (Option StoredPlugin) × List Event :=
  match getPluginData st pluginId with
  | none => (.error (updateNonexistentMsg2 pluginId), [])
  | some data =>
    if data.local' then (.error cannotUpdateLocalMsg, [])
    else if data.src = "" then (.error noSrcMsg, [])
    else
      match o.manifestResult with
      | .error e => (.error (updateFailedMsg pluginId e), [Event.fetchManifest pluginId])
      | .ok newManifest =>
        let hashesMatch := match data.manifest.hash with
          | some h => newManifest.hash == some h
          | none => false
        if hashesMatch then (.ok none, [Event.fetchManifest pluginId])
        else
          match o.jsResult with
          | .error e => (.error (updateFailedMsg pluginId e), [Event.fetchManifest pluginId])
          | .ok newJs =>
            let updated := { data with
              js := newJs, manifest := newManifest, lastUpdated := some now }
            (.ok (some updated), [Event.fetchManifest pluginId])

/-- plugins.tsx 623-665. On an applied update the source increments
`startCount` on the STALE record object it fetched before `editPlugin`
replaced the registry entry with a fresh merged copy, so those stat
writes never reach the registry and are not modelled (same for the catch
block's writes after a successful `editPlugin`; on a fetch failure no
`editPlugin` ran and the catch block's writes do land). -/
def updatePlugin (o : FetchOracle) (now : Int) (st : RState) (pluginId : String) :
    (Outcome × Option Bool) × RState × List Event :=
  match getPluginData st pluginId with
  | none => ((.thrown (updateNonexistentMsg2 pluginId), none), st, [])
  | some data =>
    match fetchUpdate o now st pluginId with
    | (.error e, evs) =>
      let stats := data.usageStats.getD { startCount := 0, errorCount := 0 }
      let data' := { data with
        usageStats := some { stats with errorCount := stats.errorCount + 1 },
        lastError := some e }
      ((.thrown e, none), { st with internalData := alistSet st.internalData pluginId data' }, evs)
    | (.ok none, evs) => ((.resolved, some false), st, evs)
    | (.ok (some checked), evs) =>
      match editPlugin st pluginId checked with
      | .error e => ((.thrown e, none), st, evs)
      | .ok st1 =>
        let updEvs := match alistGet? st1.loadedProps pluginId with
          | some lp => if lp.onUpdate.isSome then [Event.onUpdateCall pluginId] else []
          | none => []
        ((.resolved, some true), st1, evs ++ updEvs)

/-! ## plugins.tsx: addRemotePlugin (lines 173-200)

Order of operations in the source: duplicate check, id regex check, then
`await createStorage(id)` (line 177) — which throws the premature-store
error before the record object is even built. The record creation
(line 191), the update check (line 194) and the rollback (line 197) are
all unreachable; they are embedded as `addRemotePluginAfterStore`, where
`updatePluginData` on the fresh id throws in turn. -/

def pluginExistsMsg : String := "plugin already exists"

def badRemoteIdMsg : String := "plugin id must be lowercase alphanumeric with hyphens"

/-- The regex `^[a-z0-9-]+$` of line 175. -/
def remoteIdOk (id : String) : Bool :=
  decide (id.toList ≠ []) &&
    id.toList.all (fun c => c.isDigit || (decide ('a' ≤ c) && decide (c ≤ 'z')) || c == '-')

def addRemotePlugin (st : RState) (id _src : String) : RunResult :=
  if (getPluginData st id).isSome then ⟨.thrown pluginExistsMsg, st, []⟩
  else if ¬ remoteIdOk id then ⟨.thrown badRemoteIdMsg, st, []⟩
  else
    match createStorageCheck st with
    | .error e => ⟨.thrown e, st, []⟩
    | .ok _ => ⟨.pending, st, []⟩

/-- plugins.tsx 178-199: the unreachable continuation of `addRemotePlugin`
after `createStorage` would resolve with `store`. -/
def addRemotePluginAfterStore (o : FetchOracle) (now : Int) (st : RState)
    (id src : String) (store : List (String × JsValue)) : RunResult :=
  let plugin : StoredPlugin :=
    { name := "", version := "", author := "", description := "",
      local' := false, src := src, manifest := {}, js := "", on' := false,
      store := store }
  match updatePluginData st id (patchOfPlugin plugin) with
  | .error e => ⟨.thrown e, st, []⟩
  | .ok st1 =>
    match updatePlugin o now st1 id with
    | ((.thrown e, _), st2, evs) =>
      ⟨.thrown e, { st2 with internalData := alistDel st2.internalData id }, evs⟩
    | ((_, _), st2, evs) => ⟨.resolved, st2, evs⟩

end Shield

namespace Shield

/-! ## plugins.tsx: createPluginSandbox rate limiter (lines 414-468)

`rateLimits` is a per-sandbox `Map<string, {count, reset}>`; each
capability (`"fetch"`, `"setTimeout"`, `"setInterval"`) meters under its
own key. `checkRateLimit` is embedded verbatim; a capability call
succeeds iff it returns `true`. -/

def MAX_REQUESTS : Nat := 100

def WINDOW_MS : Int := 60000

structure RateLimitEntry where
  count : Nat
  reset : Int
deriving DecidableEq

/-- plugins.tsx 419-431. -/
def checkRateLimit (rateLimits : List (String × RateLimitEntry)) (now : Int)
    (key : String) : Bool × List (String × RateLimitEntry) :=
  let limit := (alistGet? rateLimits key).getD { count := 0, reset := now + WINDOW_MS }
  let limit := if now > limit.reset then { count := 0, reset := now + WINDOW_MS } else limit
  let limit := { limit with count := limit.count + 1 }
  (decide (limit.count ≤ MAX_REQUESTS), alistSet rateLimits key limit)

/-- The rate-limiter state after `n` capability calls on `key`, all at
time `now`, in a fresh sandbox. -/
def rateStateAfter (now : Int) (key : String) : Nat → List (String × RateLimitEntry)
  | 0 => []
  | n + 1 => (checkRateLimit (rateStateAfter now key n) now key).2

/-- Whether the `n`-th call (1-based) on `key` succeeds, all calls at time
`now` in a fresh sandbox. -/
def rateResult (now : Int) (key : String) (n : Nat) : Bool :=
  (checkRateLimit (rateStateAfter now key (n - 1)) now key).1

/-! ## data.ts: export / import (lines 29-168) -/

structure ExportedPlugin where
  on' : Bool
  js : String
  manifest : PluginMetadata
  /-- only remote entries carry `update`; for local entries the property
  is absent. -/
  update : Option Bool := none
deriving DecidableEq

/-- A snapshot entry: `[plugin obj]` or `[plugin obj, plugin data]`. -/
abbrev ExportEntry := ExportedPlugin × Option (List (String × JsValue))

structure DataExport where
  dbStore : List (String × JsValue) := []
  localPlugins : List (String × ExportEntry) := []
  remotePlugins : List (String × ExportEntry) := []

/-- data.ts 29-66. Iterates the registry in insertion order; skips ids not
selected, and plugins carrying an `injectorIntegration` property. -/
def exportData (st : RState) (pluginsToExport : List (String × Bool)) : DataExport :=
  st.internalData.foldl
    (fun acc entry =>
      let id := entry.1
      match alistGet? pluginsToExport id with
      | none => acc
      | some exportStore =>
        match getPluginData st id with
        | none => acc
        | some plugin =>
          if plugin.injectorIntegration.isSome then acc
          else
            let pluginData := if exportStore then some plugin.store else none
            if plugin.local' then
              let exported : ExportedPlugin :=
                { on' := plugin.on', js := plugin.js, manifest := plugin.manifest }
              { acc with localPlugins := alistSet acc.localPlugins id (exported, pluginData) }
            else
              let exported : ExportedPlugin :=
                { on' := plugin.on', js := plugin.js, manifest := plugin.manifest,
                  update := plugin.update }
              { acc with remotePlugins :=
                  alistSet acc.remotePlugins plugin.src (exported, pluginData) })
    { dbStore := st.dbStoreData }

/-- The default manifest `?? { name: "", description: "", version:
"1.0.0", author: "" }` of data.ts 84-89 / 141-146. In this typed model a
snapshot entry always carries a manifest object, so the fallback never
applies; it is kept for reference. -/
def fallbackManifest : PluginMetadata :=
  { name := "", description := "", version := "1.0.0", author := "" }

/-- The `if (id in loadedPlugins) stopPlugin(id)` guard of data.ts
lines 77 and 132: `loadedPlugins` is the never-written `createMutable`
export of plugins.tsx line 130, so the stop branch is dead. -/
def stopIfInMut (now : Int) (st : RState) (id : String) : RunResult :=
  if (alistGet? st.loadedPluginsMut id).isSome then stopPlugin now st id
  else ⟨.resolved, st, []⟩

/-- Common tail of one import entry (data.ts 97-109 / 154-166): propagate
the patch error, else fire-and-forget `startPlugin` when the snapshot
marked the entry enabled. -/
def importEntryFinish (now : Int) (ev : Except String EvaledPlugin) (theId : String)
    (onFlag : Bool) (evs0 : List Event) (patched : Except String RState) :
    Except String (RState × List Event) :=
  match patched with
  | .error e => .error e
  | .ok st1 =>
    if onFlag then
      let r := startPlugin now ev st1 theId
      .ok (r.state, evs0 ++ r.events)
    else .ok (st1, evs0)

/-- data.ts 73-110: one local entry. Line 77 consults `loadedPlugins`
(the never-written `createMutable`), so the stop branch is dead; the
fire-and-forget `startPlugin(localId)` of line 109 runs synchronously up
to its first `await` and its rejection is NOT propagated to the importer,
so its result is discarded while its state effects are kept. Errors of
the synchronous `updatePluginData` propagate. -/
def importLocalEntry (now : Int) (ev : Except String EvaledPlugin) (st : RState)
    (localId : String) (entry : ExportEntry) : Except String (RState × List Event) :=
  let pluginData := entry.1
  let storeData := entry.2
  let afterStop := stopIfInMut now st localId
  let st := afterStop.state
  let existingPlugin := getPluginData st localId
  let patch : PluginPatch :=
    { local' := some true, on' := some false,
      js := some pluginData.js,
      manifest := some pluginData.manifest,
      store := some (storeData.getD ((existingPlugin.map (fun p => p.store)).getD [])) }
  let patched :=
    updatePluginData st localId
      (match existingPlugin with
       | some _ => patch
       | none =>
         { patch with
           name := some pluginData.manifest.name,
           description := some pluginData.manifest.description,
           version := some pluginData.manifest.version,
           author := some pluginData.manifest.author })
  importEntryFinish now ev localId pluginData.on' afterStop.events patched

/-- data.ts 117-127: scan the registry for records whose `src` matches the
snapshot key; keep the first match as the merge target and remove later
duplicates. `getPlugin` (plugins.tsx 711-715) throws for an absent id. -/
def findRemoteTarget (now : Int) (st : RState) (remoteSrc : String) :
    Except String (Option String × RState × List Event) :=
  (st.internalData.map (fun p => p.1)).foldlM
    (fun acc id =>
      let found := acc.1
      let st := acc.2.1
      let evs := acc.2.2
      match getPluginData st id with
      | none => .error ("attempted to get data for non-existent plugin: " ++ id)
      | some plugin =>
        if plugin.src = remoteSrc then
          match found with
          | none => .ok (some id, st, evs)
          | some _ =>
            let r := removePlugin now st id
            .ok (found, r.state, evs ++ r.events)
        else .ok (found, st, evs))
    ((none : Option String), st, ([] : List Event))

/-- data.ts 113-167: one remote entry. -/
def importRemoteEntry (now : Int) (ev : Except String EvaledPlugin) (st : RState)
    (remoteSrc : String) (entry : ExportEntry) : Except String (RState × List Event) :=
  let pluginData := entry.1
  let storeData := entry.2
  match findRemoteTarget now st remoteSrc with
  | .error e => .error e
  | .ok (found, st, evs0) =>
    let idToApplyTo := match found with
      | some id => id
      | none => ((remoteSrc.splitOn "://").getLast?).getD ""
    if idToApplyTo = "" then .ok (st, evs0)
    else
      let afterStop := stopIfInMut now st idToApplyTo
      let st := afterStop.state
      let existingPlugin := getPluginData st idToApplyTo
      let patch : PluginPatch :=
        { local' := some false, on' := some false,
          update := some (some (pluginData.update.getD true)),
          src := some remoteSrc,
          js := some pluginData.js,
          manifest := some pluginData.manifest,
          store := some (storeData.getD ((existingPlugin.map (fun p => p.store)).getD [])) }
      let patched :=
        updatePluginData st idToApplyTo
          (match existingPlugin with
           | some _ => patch
           | none =>
             { patch with
               name := some pluginData.manifest.name,
               description := some pluginData.manifest.description,
               version := some pluginData.manifest.version,
               author := some pluginData.manifest.author })
      importEntryFinish now ev idToApplyTo pluginData.on' (evs0 ++ afterStop.events) patched

/-- data.ts 68-168: merge the global store, then process local entries,
then remote entries, in snapshot enumeration order. A synchronous throw
in any entry aborts the whole import (there is no per-entry catch). -/
def importData (now : Int) (ev : Except String EvaledPlugin) (st : RState)
    (dataToImport : DataExport) : Except String (RState × List Event) :=
  let st := { st with dbStoreData := alistAssign st.dbStoreData dataToImport.dbStore }
  let localPass : Except String (RState × List Event) :=
    dataToImport.localPlugins.foldlM
      (fun acc entry =>
        match importLocalEntry now ev acc.1 entry.1 entry.2 with
        | .error e => .error e
        | .ok (st', evs') => .ok (st', acc.2 ++ evs')) (st, ([] : List Event))
  match localPass with
  | .error e => .error e
  | .ok (st1, evs1) =>
    dataToImport.remotePlugins.foldlM
      (fun acc entry =>
        match importRemoteEntry now ev acc.1 entry.1 entry.2 with
        | .error e => .error e
        | .ok (st', evs') => .ok (st', acc.2 ++ evs')) (st1, evs1)

end Shield

namespace Shield

/-! ## Reachable runtime states

The mutating operations the embedded modules expose. `applyROp` runs one
and keeps its final state (whether it resolved or threw, matching the
source, where a throwing operation keeps whatever mutations it made). -/

inductive ROp : Type
  | startOp : Int → Except String EvaledPlugin → String → ROp
  | stopOp : Int → String → ROp
  | removeOp : Int → String → ROp
  | addLocalOp : String → StoredPlugin → ROp
  | addRemoteOp : String → String → ROp
  | editOp : String → StoredPlugin → ROp
  | updateOp : FetchOracle → Int → String → ROp
  | importOp : Int → Except String EvaledPlugin → DataExport → ROp

def applyROp (st : RState) : ROp → RState
  | .startOp now ev pid => (startPlugin now ev st pid).state
  | .stopOp now pid => (stopPlugin now st pid).state
  | .removeOp now pid => (removePlugin now st pid).state
  | .addLocalOp id plugin => (addLocalPlugin st id plugin).state
  | .addRemoteOp id src => (addRemotePlugin st id src).state
  | .editOp id overwrite =>
    match editPlugin st id overwrite with
    | .ok st' => st'
    | .error _ => st
  | .updateOp o now pid => (updatePlugin o now st pid).2.1
  | .importOp now ev d =>
    match importData now ev st d with
    | .ok r => r.1
    | .error _ => st

def applyROps (ops : List ROp) (st : RState) : RState :=
  ops.foldl applyROp st

theorem updatePluginData_db {st : RState} {id : String} {p : PluginPatch} {st' : RState}
    (h : updatePluginData st id p = .ok st') :
    st'.pluginStoragesDb = st.pluginStoragesDb := by
  unfold updatePluginData at h
  split at h
  · simp at h
  · simp only [Except.ok.injEq] at h
    subst h
    rfl

theorem startPlugin_db (now : Int) (ev : Except String EvaledPlugin)
    (st : RState) (pid : String) :
    (startPlugin now ev st pid).state.pluginStoragesDb = st.pluginStoragesDb := by
  unfold startPlugin
  dsimp only
  repeat' split
  all_goals rfl

theorem stopPlugin_db (now : Int) (st : RState) (pid : String) :
    (stopPlugin now st pid).state.pluginStoragesDb = st.pluginStoragesDb := by
  unfold stopPlugin
  dsimp only
  repeat' split
  all_goals rfl

theorem removePlugin_db (now : Int) (st : RState) (pid : String) :
    (removePlugin now st pid).state.pluginStoragesDb = st.pluginStoragesDb := by
  unfold removePlugin
  dsimp only
  repeat' split
  all_goals first | rfl | exact stopPlugin_db now st pid

end Shield

namespace Shield

theorem addLocalPlugin_db (st : RState) (id : String) (plugin : StoredPlugin) :
    (addLocalPlugin st id plugin).state.pluginStoragesDb = st.pluginStoragesDb := by
  unfold addLocalPlugin
  dsimp only
  repeat' split
  · rfl
  · rfl
  · rfl
  case _ st' h => exact (updatePluginData_db h).symm ▸ rfl

theorem addRemotePlugin_db (st : RState) (id src : String) :
    (addRemotePlugin st id src).state.pluginStoragesDb = st.pluginStoragesDb := by
  unfold addRemotePlugin
  repeat' split
  all_goals rfl

theorem editPlugin_db {st : RState} {id : String} {overwrite : StoredPlugin} {st' : RState}
    (h : editPlugin st id overwrite = .ok st') :
    st'.pluginStoragesDb = st.pluginStoragesDb :=
  updatePluginData_db h

theorem updatePlugin_db (o : FetchOracle) (now : Int) (st : RState) (pid : String) :
    (updatePlugin o now st pid).2.1.pluginStoragesDb = st.pluginStoragesDb := by
  unfold updatePlugin
  dsimp only
  repeat' split
  all_goals try rfl
  all_goals exact editPlugin_db (by assumption)

end Shield

namespace Shield

theorem foldlM_preserves {β σ γ : Type} (g : σ → γ) (f : σ → β → Except String σ)
    (hf : ∀ s b s', f s b = .ok s' → g s' = g s) :
    ∀ (l : List β) (s s' : σ), l.foldlM f s = .ok s' → g s' = g s := by
  intro l
  induction l with
  | nil =>
    intro s s' h
    exact congrArg g (Except.ok.inj h).symm
  | cons b t ih =>
    intro s s' h
    rw [List.foldlM_cons] at h
    cases hfb : f s b with
    | error e =>
      rw [hfb] at h
      exact Except.noConfusion h
    | ok s1 =>
      rw [hfb] at h
      exact (ih s1 s' h).trans (hf s b s1 hfb)

theorem stopIfInMut_db (now : Int) (st : RState) (id : String) :
    (stopIfInMut now st id).state.pluginStoragesDb = st.pluginStoragesDb := by
  unfold stopIfInMut
  split
  · exact stopPlugin_db now st id
  · rfl

theorem importEntryFinish_db {now : Int} {ev : Except String EvaledPlugin}
    {theId : String} {onFlag : Bool} {evs0 : List Event}
    {patched : Except String RState} {st' : RState} {evs : List Event} {d : Option Unit}
    (hp : ∀ st1, patched = .ok st1 → st1.pluginStoragesDb = d)
    (h : importEntryFinish now ev theId onFlag evs0 patched = .ok (st', evs)) :
    st'.pluginStoragesDb = d := by
  unfold importEntryFinish at h
  cases patched with
  | error e => cases h
  | ok st1 =>
    have h1 := hp st1 rfl
    dsimp only at h
    split at h
    · rw [Except.ok.injEq, Prod.mk.injEq] at h
      obtain ⟨ha, _⟩ := h
      subst ha
      exact (startPlugin_db now ev st1 theId).trans h1
    · rw [Except.ok.injEq, Prod.mk.injEq] at h
      obtain ⟨ha, _⟩ := h
      subst ha
      exact h1

theorem importLocalEntry_db {now : Int} {ev : Except String EvaledPlugin} {st : RState}
    {localId : String} {entry : ExportEntry} {st' : RState} {evs : List Event}
    (h : importLocalEntry now ev st localId entry = .ok (st', evs)) :
    st'.pluginStoragesDb = st.pluginStoragesDb := by
  unfold importLocalEntry at h
  dsimp only at h
  exact importEntryFinish_db
    (fun st1 hok => (updatePluginData_db hok).trans (stopIfInMut_db now st localId)) h

end Shield

namespace Shield

theorem findRemoteTarget_db {now : Int} {st : RState} {remoteSrc : String}
    {found : Option String} {st' : RState} {evs : List Event}
    (h : findRemoteTarget now st remoteSrc = .ok (found, st', evs)) :
    st'.pluginStoragesDb = st.pluginStoragesDb := by
  unfold findRemoteTarget at h
  have := foldlM_preserves (γ := Option Unit)
    (fun acc : Option String × RState × List Event => acc.2.1.pluginStoragesDb)
    _
    (fun acc id acc' hstep => by
      dsimp only at hstep
      split at hstep
      · cases hstep
      · split at hstep
        · split at hstep
          · rw [Except.ok.injEq] at hstep
            subst hstep
            rfl
          · rw [Except.ok.injEq] at hstep
            subst hstep
            exact removePlugin_db now acc.2.1 id
        · rw [Except.ok.injEq] at hstep
          subst hstep
          rfl)
    (st.internalData.map (fun p => p.1)) (none, st, []) (found, st', evs) h
  exact this

theorem importRemoteEntry_db {now : Int} {ev : Except String EvaledPlugin} {st : RState}
    {remoteSrc : String} {entry : ExportEntry} {st' : RState} {evs : List Event}
    (h : importRemoteEntry now ev st remoteSrc entry = .ok (st', evs)) :
    st'.pluginStoragesDb = st.pluginStoragesDb := by
  unfold importRemoteEntry at h
  split at h
  · cases h
  case _ found stF evs0 heqF =>
    have hF : stF.pluginStoragesDb = st.pluginStoragesDb := findRemoteTarget_db heqF
    dsimp only at h
    split at h
    · rw [Except.ok.injEq, Prod.mk.injEq] at h
      obtain ⟨ha, _⟩ := h
      subst ha
      exact hF
    · exact importEntryFinish_db
        (fun st1 hok => (updatePluginData_db hok).trans
          ((stopIfInMut_db now stF _).trans hF)) h

theorem importData_db {now : Int} {ev : Except String EvaledPlugin} {st : RState}
    {d : DataExport} {st' : RState} {evs : List Event}
    (h : importData now ev st d = .ok (st', evs)) :
    st'.pluginStoragesDb = st.pluginStoragesDb := by
  unfold importData at h
  dsimp only at h
  split at h
  · cases h
  case _ st1 evs1 heq1 =>
    have h1 : st1.pluginStoragesDb = st.pluginStoragesDb := by
      have := foldlM_preserves (γ := Option Unit)
        (fun acc : RState × List Event => acc.1.pluginStoragesDb)
        _
        (fun acc entry acc' hstep => by
          split at hstep
          · cases hstep
          case _ stE evsE heqE =>
            rw [Except.ok.injEq] at hstep
            subst hstep
            exact importLocalEntry_db heqE)
        d.localPlugins _ (st1, evs1) heq1
      exact this
    have h2 := foldlM_preserves (γ := Option Unit)
      (fun acc : RState × List Event => acc.1.pluginStoragesDb)
      _
      (fun acc entry acc' hstep => by
        split at hstep
        · cases hstep
        case _ stE evsE heqE =>
          rw [Except.ok.injEq] at hstep
          subst hstep
          exact importRemoteEntry_db heqE)
      d.remotePlugins (st1, evs1) (st', evs) h
    exact h2.trans h1

theorem applyROp_db (st : RState) (op : ROp) :
    (applyROp st op).pluginStoragesDb = st.pluginStoragesDb := by
  cases op with
  | startOp now ev pid => exact startPlugin_db now ev st pid
  | stopOp now pid => exact stopPlugin_db now st pid
  | removeOp now pid => exact removePlugin_db now st pid
  | addLocalOp id plugin => exact addLocalPlugin_db st id plugin
  | addRemoteOp id src => exact addRemotePlugin_db st id src
  | editOp id overwrite =>
    dsimp only [applyROp]
    split
    · exact editPlugin_db (by assumption)
    · rfl
  | updateOp o now pid => exact updatePlugin_db o now st pid
  | importOp now ev d =>
    dsimp only [applyROp]
    split
    · exact importData_db (by assumption)
    · rfl

theorem applyROps_db (ops : List ROp) (st : RState) :
    (applyROps ops st).pluginStoragesDb = st.pluginStoragesDb := by
  induction ops generalizing st with
  | nil => rfl
  | cons op rest ih =>
    simp only [applyROps, List.foldl_cons]
    exact (ih (applyROp st op)).trans (applyROp_db st op)

end Shield

namespace Shield

/-! ## Supporting lemmas for the claim theorems -/

theorem alistGet?_set_ne {α : Type} (m : List (String × α)) (k k' : String) (v : α)
    (h : ¬ k' = k) : alistGet? (alistSet m k v) k' = alistGet? m k' := by
  have hkk : (decide (k = k')) = false := decide_eq_false (fun hh => h hh.symm)
  induction m with
  | nil => simp [alistSet, alistGet?, List.find?, hkk]
  | cons p rest ih =>
    obtain ⟨k1, v1⟩ := p
    by_cases h1 : k1 = k
    · subst h1
      simp [alistSet, alistGet?, List.find?, hkk]
    · simp only [alistSet, if_neg h1]
      by_cases h2 : k1 = k'
      · subst h2
        simp [alistGet?, List.find?]
      · have hk1 : (decide (k1 = k')) = false := by simp [h2]
        simp only [alistGet?, List.find?] at ih ⊢
        simp [hk1, ih]

theorem rateStateAfter_eq (now : Int) (key : String) :
    ∀ k : Nat, 1 ≤ k →
      rateStateAfter now key k = [(key, ⟨k, now + WINDOW_MS⟩)] := by
  intro k hk
  induction k with
  | zero => omega
  | succ n ih =>
    rcases Nat.eq_zero_or_pos n with h0 | hpos
    · subst h0
      show (checkRateLimit (rateStateAfter now key 0) now key).2 = _
      unfold rateStateAfter checkRateLimit
      simp [alistGet?, List.find?, alistSet, WINDOW_MS]
    · show (checkRateLimit (rateStateAfter now key n) now key).2 = _
      rw [ih hpos]
      unfold checkRateLimit
      simp [alistGet?, List.find?, alistSet, WINDOW_MS]

theorem rateResult_eq (now : Int) (key : String) (k : Nat) (hk : 1 ≤ k) :
    rateResult now key k = decide (k ≤ MAX_REQUESTS) := by
  unfold rateResult
  rcases Nat.eq_or_lt_of_le hk with h1 | h2
  · rw [← h1]
    unfold checkRateLimit rateStateAfter
    simp [alistGet?, List.find?, MAX_REQUESTS, WINDOW_MS]
  · have h3 : 1 ≤ k - 1 := by omega
    rw [rateStateAfter_eq now key (k - 1) h3]
    unfold checkRateLimit
    simp [alistGet?, List.find?, MAX_REQUESTS, WINDOW_MS]

theorem applyStoreOps_db (ops : List StoreOp) (s : StorageStore) :
    (applyStoreOps ops s).db = s.db := by
  induction ops generalizing s with
  | nil => rfl
  | cons op rest ih =>
    show (applyStoreOps rest (applyStoreOp s op)).db = s.db
    rw [ih]
    cases op <;> rfl

theorem partAt_append_zero (ps : List (Option Int)) (j : Nat) :
    partAt (ps ++ [some 0]) j = partAt ps j := by
  unfold partAt
  rw [List.getD_eq_getElem?_getD, List.getD_eq_getElem?_getD]
  rcases lt_trichotomy j ps.length with hlt | heq | hgt
  · rw [List.getElem?_append_left hlt]
  · subst heq
    rw [List.getElem?_append_right (le_refl _)]
    simp [List.getElem?_eq_none (le_refl ps.length)]
  · rw [List.getElem?_append_right hgt.le]
    rw [List.getElem?_eq_none (by omega : ps.length ≤ j)]
    have h1 : ([some (0 : Int)] : List (Option Int))[j - ps.length]? = none :=
      List.getElem?_eq_none (by simp; omega)
    rw [h1]

theorem cmpFrom_eq_zero (ps1 ps2 : List (Option Int))
    (hall : ∀ j, partAt ps1 j = partAt ps2 j) :
    ∀ i fuel, cmpFrom ps1 ps2 i fuel = 0 := by
  intro i fuel
  induction fuel generalizing i with
  | zero => rfl
  | succ n ih =>
    unfold cmpFrom
    dsimp only
    rw [hall i]
    simp [ih]

theorem cmpParts_append_zero (ps : List (Option Int)) :
    cmpParts ps (ps ++ [some 0]) = 0 :=
  cmpFrom_eq_zero ps (ps ++ [some 0]) (fun j => (partAt_append_zero ps j).symm) 0 _

/-! ## Fixtures: concrete states used by the claim theorems -/

/-- A record that passes `validatePlugin` (non-empty name, author,
description; version of shape x.y.z; no optional constraints). -/
def validTestPlugin : StoredPlugin :=
  { name := "Test Plugin", description := "a test plugin", version := "1.0.0",
    author := "someone", local' := true, js := "{onLoad(){}}", on' := true,
    manifest := { name := "Test Plugin", description := "a test plugin",
                  version := "1.0.0", author := "someone" } }

/-- Registry holding one valid, never-started plugin. -/
def c1State : RState := { internalData := [("testplug", validTestPlugin)] }

/-- An evaluated plugin whose `onLoad` throws and whose `onUnload` exists. -/
def c3Hooks : EvaledPlugin :=
  { onLoad := some (.errHook "onLoad boom"), onUnload := some .okHook }

/-- A registry with one local, enabled, exportable plugin. -/
def c5Plugin : StoredPlugin :=
  { name := "Plug One", description := "d", version := "1.0.0", author := "a",
    local' := true, js := "1", on' := true,
    manifest := { name := "Plug One", description := "d", version := "1.0.0", author := "a" } }

def c5State : RState := { internalData := [("p1", c5Plugin)] }

/-- A running plugin as line 519 would register it: an entry in
`loadedProps` (the properties of the `internalLoaded` getter), with an
`onUnload` hook; the signal value is empty, as it always is. -/
def c7Hooks : EvaledPlugin := { onUnload := some .okHook }

def c7State : RState :=
  { internalData := [("someplug", validTestPlugin)],
    loadedProps := [("someplug", c7Hooks)] }

/-- The reserved development-mode plugin installed, with a private store
entry under its id in the `plugins-data` store. -/
def c7DevState : RState :=
  { internalData := [(devModeReservedId, validTestPlugin)],
    pluginStoragesData := [(devModeReservedId, .str "x")] }

end Shield

namespace Shield

/-! ## Claim theorems -/

/-- C1: the spec claims a second `start(id)` without an intervening
`stop(id)` fails with `AlreadyLoaded`, and `stop(id)` on a never-started
existing plugin fails with `NotLoaded`, both leaving the loaded table
unchanged. On the code, the `stop` half holds, but both the first AND the
second `start` on a valid existing record throw the premature-store-access
error from `createStorage` (because `isInited` is always false), never
`AlreadyLoaded`: the `LoadedPlugin` registration that would arm the
`AlreadyLoaded` check is unreachable. -/
theorem C1_second_start_premature_not_alreadyLoaded :
    (startPlugin 0 (.ok {}) c1State "testplug").outcome = .thrown prematureStoreMsg ∧
    (startPlugin 0 (.ok {}) c1State "testplug").state = c1State ∧
    (startPlugin 0 (.ok {})
        (startPlugin 0 (.ok {}) c1State "testplug").state "testplug").outcome
      = .thrown prematureStoreMsg ∧
    prematureStoreMsg ≠ alreadyLoadedMsg ∧
    (stopPlugin 0 c1State "testplug").outcome = .thrown (notLoadedMsg "testplug") ∧
    (stopPlugin 0 c1State "testplug").state = c1State :=
  ⟨rfl, rfl, rfl, by decide, rfl, rfl⟩

/-- C2: the spec claims `whenReady`/`whenInited` runs the callback
synchronously when connected and otherwise queues it to run exactly once
on connection. On the code, the store is created unconnected and the
attached `symWait` is a no-op closure: the callback is neither invoked
nor retained anywhere (the store is returned unchanged and has no queue),
so no callback is ever invoked — not exactly once. -/
theorem C2_whenInited_never_runs_callback (name : String) (cb : Nat) :
    isInited (storage name) = false ∧
    whenInited (storage name) cb = (storage name, ([] : List Nat)) :=
  ⟨rfl, rfl⟩

/-- C3: the spec claims that when a validated plugin's `onLoad` throws
during `start`, the code records `disabledAt`/`errorCount`/`lastError`,
forces `enabled=false`, best-effort unloads, removes the `LoadedPlugin`
and re-raises — and that the `LoadedPlugin` is registered before `onLoad`
runs. On the code, `startPlugin` never invokes ANY hook on any input
(first conjunct: its event trace is always empty): for a valid record it
throws the premature-store-access error from `createStorage` before
evaluating the plugin, leaving the registry entry untouched (no
`errorCount` increment, `on` still true). -/
theorem C3_onLoad_and_cleanup_unreachable :
    (∀ (now : Int) (ev : Except String EvaledPlugin) (st : RState) (id : String),
      (startPlugin now ev st id).events = []) ∧
    (startPlugin 0 (.ok c3Hooks) c1State "testplug").outcome = .thrown prematureStoreMsg ∧
    (startPlugin 0 (.ok c3Hooks) c1State "testplug").state = c1State := by
  refine ⟨?_, rfl, rfl⟩
  intro now ev st id
  unfold startPlugin
  dsimp only
  repeat' split
  all_goals rfl

/-- C4: the spec claims `installRemote` creates and persists an
empty-code record, immediately update-checks it, and rolls the record
back on update failure. On the code, `addRemotePlugin` throws the
premature-store-access error at the `createStorage` call of line 177,
before any record is created and before any fetch (empty event trace,
registry unchanged); and even the unreachable record-creation line 191
would itself throw, because `updatePluginData` refuses to create a record
for a fresh id (last conjunct). -/
theorem C4_addRemote_throws_before_creating :
    (addRemotePlugin initialState "fooplugin" "https://ex.example/p").outcome
      = .thrown prematureStoreMsg ∧
    (addRemotePlugin initialState "fooplugin" "https://ex.example/p").state = initialState ∧
    (addRemotePlugin initialState "fooplugin" "https://ex.example/p").events = [] ∧
    (∀ (o : FetchOracle) (now : Int) (store : List (String × JsValue)),
      (addRemotePluginAfterStore o now initialState "fooplugin" "https://ex.example/p"
          store).outcome
        = .thrown (updateNonexistentMsg "fooplugin")) :=
  ⟨rfl, rfl, rfl, fun _ _ _ => rfl⟩

/-- C5: the spec claims export-then-import into an empty registry
reproduces the exported ids, enabled flags and manifests. On the code,
exporting a registry with one plain local plugin yields the expected
snapshot entry, but importing that snapshot into the empty registry
throws `attempted to update non-existent plugin: p1`: `importData`'s
create branch calls `updatePluginData`, which refuses to create records
for absent ids, so the round-trip reproduces nothing. -/
theorem C5_roundtrip_into_empty_registry_throws :
    (exportData c5State [("p1", false)]).localPlugins =
      [("p1", ({ on' := true, js := "1", manifest := c5Plugin.manifest }, none))] ∧
    importData 0 (.ok {}) initialState (exportData c5State [("p1", false)])
      = .error (updateNonexistentMsg "p1") :=
  ⟨rfl, rfl⟩

/-- C6: for each capability key, in a fresh sandbox with all calls inside
one window: the k-th call succeeds for 1 ≤ k ≤ MAX (100), the
(MAX+1)-th call fails, a call after the window has elapsed succeeds again
(the counter resets), and a call on one key never touches another key's
entry (per-capability independence; per-plugin independence holds because
`rateLimits` is allocated per `createPluginSandbox` closure). -/
theorem C6_rate_limit_window (k : Nat) (h1 : 1 ≤ k) (h2 : k ≤ MAX_REQUESTS)
    (now : Int) (key other : String) (hne : ¬ other = key) :
    rateResult now key k = true ∧
    rateResult now key (MAX_REQUESTS + 1) = false ∧
    (checkRateLimit (rateStateAfter now key (MAX_REQUESTS + 1))
        (now + WINDOW_MS + 1) key).1 = true ∧
    (∀ limits : List (String × RateLimitEntry),
      alistGet? (checkRateLimit limits now key).2 other = alistGet? limits other) := by
  refine ⟨?_, ?_, ?_, ?_⟩
  · rw [rateResult_eq now key k h1]
    simpa using h2
  · rw [rateResult_eq now key (MAX_REQUESTS + 1) (by omega)]
    simp [MAX_REQUESTS]
  · rw [rateStateAfter_eq now key (MAX_REQUESTS + 1) (by omega)]
    unfold checkRateLimit
    simp [alistGet?, List.find?, MAX_REQUESTS, WINDOW_MS]
  · intro limits
    unfold checkRateLimit
    exact alistGet?_set_ne limits key other _ hne

theorem C6_rate_limit_window_witness :
    rateResult 0 "fetch" 1 = true ∧
    rateResult 0 "fetch" (MAX_REQUESTS + 1) = false ∧
    (checkRateLimit (rateStateAfter 0 "fetch" (MAX_REQUESTS + 1))
        (0 + WINDOW_MS + 1) "fetch").1 = true ∧
    (∀ limits : List (String × RateLimitEntry),
      alistGet? (checkRateLimit limits 0 "fetch").2 "setTimeout"
        = alistGet? limits "setTimeout") :=
  C6_rate_limit_window 1 (by decide) (by decide) 0 "fetch" "setTimeout" (by decide)

/-- C7: the spec claims `removePlugin` on a currently running plugin
stops it first (its `onUnload` observably fires) before deleting the
record. On the code, with a running plugin registered where line 519 puts
it (the `internalLoaded` getter's properties), `removePlugin` deletes the
record WITHOUT stopping: line 211 consults the signal's never-updated
value, so no `onUnload` fires (empty event trace) and the stale
`LoadedPlugin` entry survives. The devmode half of the claim holds:
removing the reserved id also deletes its `plugins-data` entry. -/
theorem C7_removePlugin_skips_stop :
    (removePlugin 0 c7State "someplug").outcome = .resolved ∧
    alistGet? (removePlugin 0 c7State "someplug").state.internalData "someplug" = none ∧
    (removePlugin 0 c7State "someplug").events = [] ∧
    alistGet? (removePlugin 0 c7State "someplug").state.loadedProps "someplug"
      = some c7Hooks ∧
    (removePlugin 0 c7DevState devModeReservedId).state.pluginStoragesData = [] ∧
    alistGet? (removePlugin 0 c7DevState devModeReservedId).state.internalData
      devModeReservedId = none :=
  ⟨rfl, rfl, rfl, rfl, rfl, rfl⟩

/-- C8: the spec claims non-representable values (functions, symbols,
cycles) are rejected with a `StoreValueError` surfaced at the call site
rather than silently dropped. On the code, `cloneRec` LOGS and returns
`undefined` for a function or symbol (its `throw` is commented out), the
proxy `set` trap reports success unconditionally (`save()` catches every
serialization error internally), and the JSON text `save()` persists
simply omits the key — the value is silently dropped with no error at the
call site. -/
theorem C8_nonserializable_silently_dropped :
    cloneRec .func [] = .ok (.undef, [cantStoreMsg "function"]) ∧
    cloneRec .symbol [] = .ok (.undef, [cantStoreMsg "symbol"]) ∧
    (proxySet (storage "dbstore") "k" .func).1 = true ∧
    persistedJson (proxySet (storage "dbstore") "k" .func).2 = some "\x7b\x7d" :=
  ⟨rfl, rfl, rfl, rfl⟩

/-- C9: `compareVersions` compares part by part numerically with missing
parts treated as 0: the three examples of the spec hold, and appending a
`.0` part to any part list leaves the comparison equal (missing = 0 in
general). -/
theorem C9_compareVersions_spec :
    compareVersions "1.2.0" "1.2" = 0 ∧
    compareVersions "2.0.0" "1.9.9" > 0 ∧
    compareVersions "1.0.0" "1.0.1" < 0 ∧
    (∀ ps : List (Option Int), cmpParts ps (ps ++ [some 0]) = 0) :=
  ⟨by decide, by decide, by decide, cmpParts_append_zero⟩

/-- C10: every store produced by `storage(name)` is created with
`symDb = undefined` and no operation ever sets it, so `isInited` is false
forever; consequently `createStorage(pluginId)`'s precondition check
fails in every runtime state reachable by the embedded operations, and
it throws the premature-store-access error on every call. -/
theorem C10_isInited_false_forever (name : String) (ops : List StoreOp)
    (rops : List ROp) :
    isInited (storage name) = false ∧
    isInited (applyStoreOps ops (storage name)) = false ∧
    createStorageCheck (applyROps rops initialState)
      = .error prematureStoreMsg := by
  refine ⟨rfl, ?_, ?_⟩
  · show ((applyStoreOps ops (storage name)).db).isSome = false
    rw [applyStoreOps_db]
    rfl
  · unfold createStorageCheck
    rw [applyROps_db]
    rfl

end Shield
